import Mathlib

/-!
Verification of the polymorphic parameter-value model of vda5050-types-rs.

The development embeds the value types of `src/common.rs` and `src/action.rs`
(`ParameterValue`, `ActionParameterValue`, their visitors, accessors and the
surrounding records) and the wire-value tree they are decoded from.  IEEE
doubles are modelled as either NaN or an exact rational; the wire tree is the
standard JSON-like data model (null, boolean, number with the integer/float
distinction kept at the syntax level, string, ordered key-map, ordered list).
-/

/-- The builtin boolean, under a name no variant constructor shadows. -/
abbrev CoreBool := Bool

/-- The builtin string, under a name no variant constructor shadows. -/
abbrev CoreString := String

/-- Model of an IEEE-754 double: NaN, or a finite value carried as an exact
rational.  Infinities cannot reach the value model from the wire grammar and
are not needed by any claim, so they are not modelled.  The sign of zero is
collapsed (IEEE equality identifies 0.0 and -0.0). -/
inductive F64 where
  | nan
  | finite (q : Rat)
deriving DecidableEq

/-- IEEE-754 equality on the double model, as Rust's `f64: PartialEq` compares:
NaN is unequal to everything, itself included; finite values compare by value. -/
def F64.beq : F64 → F64 → Bool
  | .finite q, .finite r => decide (q = r)
  | _, _ => false

/-- Fuel-driven count of the multiplicity of `p` in `n` (fuel `n` suffices
because the argument strictly decreases at each division). -/
def countFactorAux : Nat → Nat → Nat → Nat
  | 0, _, _ => 0
  | fuel + 1, p, n => if 1 < p ∧ 0 < n ∧ p ∣ n then countFactorAux fuel p (n / p) + 1 else 0

/-- Multiplicity of the factor `p` in `n`. -/
def countFactor (p n : Nat) : Nat := countFactorAux n p n

/-- Left-pad a digit string with zeros to width `k`. -/
def padZeros (k : Nat) (s : String) : String :=
  String.mk (List.replicate (k - s.length) '0') ++ s

/-- Exact decimal rendering of a rational whose denominator divides a power of
ten (every finite double is such a dyadic rational); other denominators fall
back to a fraction rendering.  Models the canonical decimal text of a double. -/
def ratRender (q : Rat) : String :=
  if q.den = 1 then toString q.num
  else
    let a := countFactor 2 q.den
    let b := countFactor 5 q.den
    if q.den = 2 ^ a * 5 ^ b then
      let k := max a b
      let m := 10 ^ k / q.den
      let t := q.num.natAbs * m
      let sign := if q.num < 0 then "-" else ""
      sign ++ toString (t / 10 ^ k) ++ "." ++ padZeros k (toString (t % 10 ^ k))
    else toString q.num ++ "/" ++ toString q.den

/-- Canonical text of a double in the model (Rust's `Display for f64`). -/
def F64.render : F64 → String
  | .nan => "NaN"
  | .finite q => ratRender q

/-- A wire numeric literal: integral (serde_json keeps integers in signed or
unsigned 64-bit form) or floating (an IEEE double). -/
inductive JNum where
  | int (n : Int)
  | float (f : F64)

/-- Modelled from the spec: the generic wire-value tree (the standard JSON-like
data model, also standing in for `serde_json::Value`): null, boolean, number,
UTF-8 string, ordered list, ordered key-map. -/
inductive Json where
  | null
  | bool (b : Bool)
  | num (n : JNum)
  | str (s : String)
  | arr (xs : List Json)
  | obj (kvs : List (String × Json))

mutual
/-- Modelled from the spec: well-formedness of a wire value — numeric literals
are within 64-bit range (integral literals in `[-2^63, 2^64)`, floats finite),
as the spec's wire grammar supplies them. -/
def Json.WF : Json → Bool
  | .null => true
  | .bool _ => true
  | .num (.int n) => decide (-(2 ^ 63) ≤ n) && decide (n < 2 ^ 64)
  | .num (.float .nan) => false
  | .num (.float (.finite _)) => true
  | .str _ => true
  | .arr xs => Json.WFList xs
  | .obj kvs => Json.WFFields kvs

/-- Well-formedness of every element of a wire list. -/
def Json.WFList : List Json → Bool
  | [] => true
  | x :: xs => Json.WF x && Json.WFList xs

/-- Well-formedness of every value of a wire key-map. -/
def Json.WFFields : List (String × Json) → Bool
  | [] => true
  | kv :: kvs => Json.WF kv.2 && Json.WFFields kvs
end

/-- One escaped character of a rendered wire string. -/
def escapeChar (c : Char) : String :=
  if c = '"' then "\\\""
  else if c = '\\' then "\\\\"
  else if c = '\n' then "\\n"
  else if c = '\r' then "\\r"
  else if c = '\t' then "\\t"
  else String.singleton c

/-- A wire string rendered as quoted, escaped text. -/
def renderJsonString (s : String) : String :=
  "\"" ++ String.join (s.toList.map escapeChar) ++ "\""

mutual
/-- Modelled from the spec: the canonical nested textual rendering of a wire
value (the external structural value's `Display`, compact form). -/
def jsonRender : Json → String
  | .null => "null"
  | .bool b => if b then "true" else "false"
  | .num (.int n) => toString n
  | .num (.float f) => F64.render f
  | .str s => renderJsonString s
  | .arr xs => "[" ++ jsonRenderItems xs ++ "]"
  | .obj kvs => "\x7b" ++ jsonRenderFields kvs ++ "\x7d"

/-- Comma-separated rendering of the elements of a wire list. -/
def jsonRenderItems : List Json → String
  | [] => ""
  | [x] => jsonRender x
  | x :: y :: xs => jsonRender x ++ "," ++ jsonRenderItems (y :: xs)

/-- Comma-separated rendering of the entries of a wire key-map. -/
def jsonRenderFields : List (String × Json) → String
  | [] => ""
  | [kv] => renderJsonString kv.1 ++ ":" ++ jsonRender kv.2
  | kv :: f :: fs => renderJsonString kv.1 ++ ":" ++ jsonRender kv.2 ++ "," ++ jsonRenderFields (f :: fs)
end

mutual
/-- Structural equality on wire values as Rust's derived `PartialEq` for the
generic value tree compares it: field-wise, with numeric leaves compared by
IEEE equality (`F64.beq`). -/
def jsonBeq : Json → Json → Bool
  | .null, .null => true
  | .bool a, .bool b => decide (a = b)
  | .num (.int a), .num (.int b) => decide (a = b)
  | .num (.float a), .num (.float b) => F64.beq a b
  | .str a, .str b => decide (a = b)
  | .arr a, .arr b => jsonBeqList a b
  | .obj a, .obj b => jsonBeqFields a b
  | _, _ => false

/-- Element-wise `jsonBeq` on wire lists. -/
def jsonBeqList : List Json → List Json → Bool
  | [], [] => true
  | a :: as, b :: bs => jsonBeq a b && jsonBeqList as bs
  | _, _ => false

/-- Entry-wise `jsonBeq` on wire key-maps. -/
def jsonBeqFields : List (String × Json) → List (String × Json) → Bool
  | [], [] => true
  | a :: as, b :: bs => decide (a.1 = b.1) && jsonBeq a.2 b.2 && jsonBeqFields as bs
  | _, _ => false
end

mutual
/-- No NaN leaf occurs in the wire value. -/
def jsonNoNaN : Json → Bool
  | .num (.float .nan) => false
  | .arr xs => jsonNoNaNList xs
  | .obj kvs => jsonNoNaNFields kvs
  | _ => true

/-- No NaN leaf occurs in any element of the list. -/
def jsonNoNaNList : List Json → Bool
  | [] => true
  | x :: xs => jsonNoNaN x && jsonNoNaNList xs

/-- No NaN leaf occurs in any value of the key-map. -/
def jsonNoNaNFields : List (String × Json) → Bool
  | [] => true
  | kv :: kvs => jsonNoNaN kv.2 && jsonNoNaNFields kvs
end

/-- `ParameterValue` from `src/common.rs` (serde configuration): the closed
variant set Null / Bool / Number / Integer / Float / String / Object / Array,
with `Object` holding a generic wire value and `Array` a list of them. -/
inductive ParameterValue where
  | Null
  | Bool (b : Bool)
  | Number (n : F64)
  | Integer (i : Int)
  | Float (f : F64)
  | String (s : String)
  | Object (v : Json)
  | Array (xs : List Json)

/-- `ActionParameterValue` from `src/action.rs`: Null / Boolean / Integer /
Float / String — no structural variants. -/
inductive ActionParameterValue where
  | Null
  | Boolean (b : Bool)
  | Integer (n : Int)
  | Float (f : F64)
  | String (s : String)

/-- Rust's `value as i64` applied to a `u64`: two's-complement
reinterpretation of the low 64 bits. -/
def u64AsI64 (n : Nat) : Int :=
  if n % 2 ^ 64 < 2 ^ 63 then ((n % 2 ^ 64 : Nat) : Int)
  else ((n % 2 ^ 64 : Nat) : Int) - 2 ^ 64

namespace PVVisitor

/-- `visit_bool` of the `deserialize_parameter_value` visitor (common.rs:411). -/
def visit_bool (value : Bool) : Except String ParameterValue := .ok (.Bool value)

/-- `visit_i64` (common.rs:427). -/
def visit_i64 (value : Int) : Except String ParameterValue := .ok (.Integer value)

/-- `visit_i8` (common.rs:415): `value as i64` is exact on the signed 8-bit range. -/
def visit_i8 (value : Int) : Except String ParameterValue := visit_i64 value

/-- `visit_i16` (common.rs:419). -/
def visit_i16 (value : Int) : Except String ParameterValue := visit_i64 value

/-- `visit_i32` (common.rs:423). -/
def visit_i32 (value : Int) : Except String ParameterValue := visit_i64 value

/-- `visit_u8` (common.rs:431): `value as i64` is exact on the unsigned 8-bit range. -/
def visit_u8 (value : Nat) : Except String ParameterValue := visit_i64 (value : Int)

/-- `visit_u16` (common.rs:435). -/
def visit_u16 (value : Nat) : Except String ParameterValue := visit_i64 (value : Int)

/-- `visit_u32` (common.rs:439). -/
def visit_u32 (value : Nat) : Except String ParameterValue := visit_i64 (value : Int)

/-- `visit_u64` (common.rs:443): `self.visit_i64(value as i64)` — the cast
wraps, it does not widen. -/
def visit_u64 (value : Nat) : Except String ParameterValue := visit_i64 (u64AsI64 value)

/-- `visit_f64` (common.rs:451). -/
def visit_f64 (value : F64) : Except String ParameterValue := .ok (.Float value)

/-- `visit_f32` (common.rs:447): widening a 32-bit float to 64 bits is exact. -/
def visit_f32 (value : F64) : Except String ParameterValue := visit_f64 value

/-- `visit_char` (common.rs:455): `String::from(value)`. -/
def visit_char (value : Char) : Except String ParameterValue :=
  .ok (.String (String.singleton value))

/-- `visit_string` (common.rs:470). -/
def visit_string (value : String) : Except String ParameterValue := .ok (.String value)

/-- `visit_str` (common.rs:459): clones into `visit_string`. -/
def visit_str (value : String) : Except String ParameterValue := visit_string value

/-- `visit_unit` (common.rs:474). -/
def visit_unit : Except String ParameterValue := .ok .Null

/-- `visit_map` (common.rs:478): the map re-deserializes into a generic wire
value, stored opaquely. -/
def visit_map (kvs : List (String × Json)) : Except String ParameterValue :=
  .ok (.Object (.obj kvs))

/-- `visit_seq` (common.rs:487): the sequence re-deserializes into a list of
generic wire values. -/
def visit_seq (xs : List Json) : Except String ParameterValue := .ok (.Array xs)

end PVVisitor

/-- `deserialize_parameter_value` (common.rs:398): `deserializer.deserialize_any(Value)`.
The dispatch by wire shape is modelled from the spec (it is the external
parser's `deserialize_any`): null to `visit_unit`, boolean to `visit_bool`,
non-negative integral literals to `visit_u64`, negative ones to `visit_i64`,
floating literals to `visit_f64`, strings to `visit_str`, key-maps to
`visit_map`, lists to `visit_seq`. -/
def deserialize_parameter_value : Json → Except String ParameterValue
  | .null => PVVisitor.visit_unit
  | .bool b => PVVisitor.visit_bool b
  | .num (.int n) => if 0 ≤ n then PVVisitor.visit_u64 n.toNat else PVVisitor.visit_i64 n
  | .num (.float f) => PVVisitor.visit_f64 f
  | .str s => PVVisitor.visit_str s
  | .arr xs => PVVisitor.visit_seq xs
  | .obj kvs => PVVisitor.visit_map kvs

namespace APVVisitor

/-- `visit_bool` of the `deserialize_value` visitor (action.rs:88). -/
def visit_bool (value : Bool) : Except String ActionParameterValue := .ok (.Boolean value)

/-- `visit_i64` (action.rs:104). -/
def visit_i64 (value : Int) : Except String ActionParameterValue := .ok (.Integer value)

/-- `visit_i8` (action.rs:92). -/
def visit_i8 (value : Int) : Except String ActionParameterValue := visit_i64 value

/-- `visit_i16` (action.rs:96). -/
def visit_i16 (value : Int) : Except String ActionParameterValue := visit_i64 value

/-- `visit_i32` (action.rs:100). -/
def visit_i32 (value : Int) : Except String ActionParameterValue := visit_i64 value

/-- `visit_u8` (action.rs:108). -/
def visit_u8 (value : Nat) : Except String ActionParameterValue := visit_i64 (value : Int)

/-- `visit_u16` (action.rs:112). -/
def visit_u16 (value : Nat) : Except String ActionParameterValue := visit_i64 (value : Int)

/-- `visit_u32` (action.rs:116). -/
def visit_u32 (value : Nat) : Except String ActionParameterValue := visit_i64 (value : Int)

/-- `visit_u64` (action.rs:120): the same wrapping cast as in common.rs. -/
def visit_u64 (value : Nat) : Except String ActionParameterValue := visit_i64 (u64AsI64 value)

/-- `visit_f64` (action.rs:128). -/
def visit_f64 (value : F64) : Except String ActionParameterValue := .ok (.Float value)

/-- `visit_f32` (action.rs:124). -/
def visit_f32 (value : F64) : Except String ActionParameterValue := visit_f64 value

/-- `visit_char` (action.rs:132). -/
def visit_char (value : Char) : Except String ActionParameterValue :=
  .ok (.String (String.singleton value))

/-- `visit_string` (action.rs:147). -/
def visit_string (value : String) : Except String ActionParameterValue := .ok (.String value)

/-- `visit_str` (action.rs:136). -/
def visit_str (value : String) : Except String ActionParameterValue := visit_string value

/-- `visit_unit` (action.rs:151). -/
def visit_unit : Except String ActionParameterValue := .ok .Null

/-- Modelled from serde's default `Visitor::visit_map`: the action.rs visitor
implements no map handler, so a key-map input is rejected with an invalid-type
error built from the visitor's `expecting` text (action.rs:85). -/
def visit_map_default : Except String ActionParameterValue :=
  .error "invalid type: map, expected null, boolean, integer, float, string"

/-- Modelled from serde's default `Visitor::visit_seq`: the action.rs visitor
implements no sequence handler, so a list input is rejected likewise. -/
def visit_seq_default : Except String ActionParameterValue :=
  .error "invalid type: sequence, expected null, boolean, integer, float, string"

end APVVisitor

/-- `deserialize_value` (action.rs:75): `deserializer.deserialize_any(Value)`,
dispatch modelled from the spec as for `deserialize_parameter_value`; key-maps
and lists fall to serde's default handlers, which reject them. -/
def deserialize_value : Json → Except String ActionParameterValue
  | .null => APVVisitor.visit_unit
  | .bool b => APVVisitor.visit_bool b
  | .num (.int n) => if 0 ≤ n then APVVisitor.visit_u64 n.toNat else APVVisitor.visit_i64 n
  | .num (.float f) => APVVisitor.visit_f64 f
  | .str s => APVVisitor.visit_str s
  | .arr _ => APVVisitor.visit_seq_default
  | .obj _ => APVVisitor.visit_map_default

/-- Modelled from the spec: the derived untagged `Serialize` for
`ParameterValue` renders each variant as its payload's wire shape with no
discriminator — Integer as an integral literal, Float and Number as floating
literals, Object as the stored wire value, Array as a list. -/
def encodeParameterValue : ParameterValue → Json
  | .Null => .null
  | .Bool b => .bool b
  | .Number n => .num (.float n)
  | .Integer i => .num (.int i)
  | .Float f => .num (.float f)
  | .String s => .str s
  | .Object v => v
  | .Array xs => .arr xs

/-- Modelled from the spec: the derived untagged `Serialize` for
`ActionParameterValue`. -/
def encodeActionParameterValue : ActionParameterValue → Json
  | .Null => .null
  | .Boolean b => .bool b
  | .Integer n => .num (.int n)
  | .Float f => .num (.float f)
  | .String s => .str s

/-- The `if i > 0 then write ", "` element loop of `get_value`'s Array arm
(common.rs:279): each element after the first is preceded by comma-and-space. -/
def arrayElementsRender : List Json → Bool → String
  | [], _ => ""
  | v :: rest, isFirst =>
      (if isFirst then "" else ", ") ++ jsonRender v ++ arrayElementsRender rest false

/-- `ParameterValue::get_value` (common.rs:248): total projection of any
variant to a human-readable string. -/
def ParameterValue.get_value : ParameterValue → CoreString
  | .Null => "null"
  | .Bool b => if b then "true" else "false"
  | .Number n => F64.render n
  | .Integer i => toString i
  | .Float f => F64.render f
  | .String s => s
  | .Object v => jsonRender v
  | .Array xs => "[" ++ arrayElementsRender xs true ++ "]"

/-- `ParameterValue::as_bool` (common.rs:316). -/
def ParameterValue.as_bool : ParameterValue → Option CoreBool
  | .Bool b => some b
  | _ => none

/-- `ParameterValue::as_number` (common.rs:324). -/
def ParameterValue.as_number : ParameterValue → Option F64
  | .Number n => some n
  | _ => none

/-- `ParameterValue::as_integer` (common.rs:332). -/
def ParameterValue.as_integer : ParameterValue → Option Int
  | .Integer i => some i
  | _ => none

/-- `ParameterValue::as_float` (common.rs:340). -/
def ParameterValue.as_float : ParameterValue → Option F64
  | .Float f => some f
  | _ => none

/-- `ParameterValue::as_string` (common.rs:348). -/
def ParameterValue.as_string : ParameterValue → Option CoreString
  | .String s => some s
  | _ => none

/-- `ParameterValue::as_object` (common.rs:357, serde configuration). -/
def ParameterValue.as_object : ParameterValue → Option Json
  | .Object v => some v
  | _ => none

/-- `ParameterValue::as_array` (common.rs:375, serde configuration). -/
def ParameterValue.as_array : ParameterValue → Option (List Json)
  | .Array xs => some xs
  | _ => none

/-- `ParameterValue::is_null` (common.rs:392). -/
def ParameterValue.is_null : ParameterValue → CoreBool
  | .Null => true
  | _ => false

/-- Rust's derived `PartialEq` for `ParameterValue`: same variant and equal
payloads, doubles compared by IEEE equality, structural payloads by the wire
value's own `PartialEq`. -/
def rustEqParameterValue : ParameterValue → ParameterValue → Bool
  | .Null, .Null => true
  | .Bool a, .Bool b => decide (a = b)
  | .Number a, .Number b => F64.beq a b
  | .Integer a, .Integer b => decide (a = b)
  | .Float a, .Float b => F64.beq a b
  | .String a, .String b => decide (a = b)
  | .Object a, .Object b => jsonBeq a b
  | .Array a, .Array b => jsonBeqList a b
  | _, _ => false

/-- Rust's derived `PartialEq` for `ActionParameterValue`. -/
def rustEqActionParameterValue : ActionParameterValue → ActionParameterValue → Bool
  | .Null, .Null => true
  | .Boolean a, .Boolean b => decide (a = b)
  | .Integer a, .Integer b => decide (a = b)
  | .Float a, .Float b => F64.beq a b
  | .String a, .String b => decide (a = b)
  | _, _ => false

/-- No NaN occurs in the value (directly or inside a structural payload). -/
def ParameterValue.noNaN : ParameterValue → CoreBool
  | .Number .nan => false
  | .Float .nan => false
  | .Object v => jsonNoNaN v
  | .Array xs => jsonNoNaNList xs
  | _ => true

/-- No NaN occurs in the value. -/
def ActionParameterValue.noNaN : ActionParameterValue → CoreBool
  | .Float .nan => false
  | _ => true

namespace action

/-- `ActionParameter` from `src/action.rs`: the minimal record shape, key plus
value. -/
structure ActionParameter where
  key : String
  value : ActionParameterValue

end action

/-- Rust's derived `PartialEq` for the action.rs `ActionParameter`. -/
def rustEqActionParameter (p q : action.ActionParameter) : Bool :=
  decide (p.key = q.key) && rustEqActionParameterValue p.value q.value

/-- `ValueDataType` from `src/common.rs`: the advisory declared-type hint. -/
inductive ValueDataType where
  | Bool
  | Number
  | Integer
  | Float
  | String
  | Object
  | Array
deriving DecidableEq

/-- The SCREAMING_SNAKE_CASE wire token of a declared-type hint. -/
def ValueDataType.wireName (t : ValueDataType) : CoreString :=
  match t with
  | .Bool => "BOOL"
  | .Number => "NUMBER"
  | .Integer => "INTEGER"
  | .Float => "FLOAT"
  | .String => "STRING"
  | .Object => "OBJECT"
  | .Array => "ARRAY"

namespace common

/-- `ActionParameter` from `src/common.rs`: the rich record shape with the
declared-type hint and metadata fields. -/
structure ActionParameter where
  key : String
  value_data_type : Option ValueDataType
  value : ParameterValue
  description : Option String
  is_optional : Option Bool

end common

/-- Rust's derived `PartialEq` for the common.rs `ActionParameter`. -/
def rustEqCommonActionParameter (p q : common.ActionParameter) : Bool :=
  decide (p.key = q.key) && decide (p.value_data_type = q.value_data_type) &&
    rustEqParameterValue p.value q.value && decide (p.description = q.description) &&
    decide (p.is_optional = q.is_optional)

/-- `AgvPosition` from `src/common.rs` (fields in declaration order). -/
structure AgvPosition where
  x : F64
  y : F64
  theta : F64
  map_id : String
  map_description : Option String
  position_initialized : Bool
  localization_score : Option F64
  deviation_range : Option F64

/-- An optional field's serialized form: `None` renders as a wire null. -/
def optionToJson (o : Option α) (enc : α → Json) : Json :=
  match o with
  | none => Json.null
  | some a => enc a

/-- Serialization of the common.rs `ActionParameter`, modelled from the serde
derive as the repository's own tests pin it
(`test_serde_ActionParameter_with_null_value`, common.rs:510): field names are
camelCased and emitted in declaration order; the `skip_serializing_none`
attribute is attached after the derive and has no effect, so every optional
field holding `None` is emitted as an explicit wire null. -/
def common.ActionParameter.serialize (p : common.ActionParameter) : Json :=
  .obj [("key", .str p.key),
        ("valueDataType", optionToJson p.value_data_type (fun t => .str t.wireName)),
        ("value", encodeParameterValue p.value),
        ("description", optionToJson p.description Json.str),
        ("isOptional", optionToJson p.is_optional Json.bool)]

/-- Serialization of `AgvPosition`, modelled from the serde derive in the same
way: camelCased field names in declaration order, `None` emitted as wire null
(the misplaced `skip_serializing_none` again has no effect). -/
def AgvPosition.serialize (p : AgvPosition) : Json :=
  .obj [("x", .num (.float p.x)),
        ("y", .num (.float p.y)),
        ("theta", .num (.float p.theta)),
        ("mapId", .str p.map_id),
        ("mapDescription", optionToJson p.map_description Json.str),
        ("positionInitialized", .bool p.position_initialized),
        ("localizationScore", optionToJson p.localization_score (fun f => .num (.float f))),
        ("deviationRange", optionToJson p.deviation_range (fun f => .num (.float f)))]

/-- The field names a serialized wire object carries. -/
def jsonObjFieldNames : Json → List String
  | .obj kvs => kvs.map (fun kv => kv.1)
  | _ => []

/-- Lookup of a field in a serialized wire object. -/
def jsonObjField (j : Json) (name : String) : Option Json :=
  match j with
  | .obj kvs => (kvs.find? (fun kv => kv.1 = name)).map (fun kv => kv.2)
  | _ => none

/-- Did decoding succeed? -/
def decodeOk : Except String α → Bool
  | .ok _ => true
  | .error _ => false

/-- A wire value of scalar shape whose integral literals are in signed 64-bit
range: the domain on which the decode-encode round trip is claimed. -/
def Json.scalarI64 : Json → Bool
  | .null => true
  | .bool _ => true
  | .num (.int n) => decide (-(2 ^ 63) ≤ n) && decide (n < 2 ^ 63)
  | .num (.float _) => true
  | .str _ => true
  | .arr _ => false
  | .obj _ => false

/-- The wrapping cast is the identity below `2^63`. -/
theorem u64AsI64_small (n : Nat) (h : n < 2 ^ 63) : u64AsI64 n = (n : Int) := by
  unfold u64AsI64
  rw [if_pos]
  · rw [Nat.mod_eq_of_lt (by omega)]
  · rw [Nat.mod_eq_of_lt (by omega)]; exact h

/-- The wrapping cast always lands in the signed 64-bit range. -/
theorem u64AsI64_range (n : Nat) : -(2 ^ 63) ≤ u64AsI64 n ∧ u64AsI64 n < 2 ^ 63 := by
  unfold u64AsI64
  have h := Nat.mod_lt n (show 0 < 2 ^ 64 by norm_num)
  split <;> omega

/-- On inputs in `[2^63, 2^64)` the wrapping cast subtracts `2^64`. -/
theorem u64AsI64_wrap (n : Nat) (h1 : 2 ^ 63 ≤ n) (h2 : n < 2 ^ 64) :
    u64AsI64 n = (n : Int) - 2 ^ 64 := by
  unfold u64AsI64
  rw [Nat.mod_eq_of_lt h2]
  rw [if_neg]
  omega

/-- Decoding an integral wire literal in the signed 64-bit range yields
`Integer` of the same value. -/
theorem decode_int_i64 (n : Int) (h1 : -(2 ^ 63) ≤ n) (h2 : n < 2 ^ 63) :
    deserialize_parameter_value (.num (.int n)) = .ok (.Integer n) := by
  rw [deserialize_parameter_value]
  by_cases h : 0 ≤ n
  · rw [if_pos h]
    rw [PVVisitor.visit_u64, u64AsI64_small n.toNat (by omega), PVVisitor.visit_i64]
    congr 2
    omega
  · rw [if_neg h, PVVisitor.visit_i64]

/-- C2: the `ParameterValue` decoder classifies every wire input by shape
alone: null yields `Null`; a boolean `b` yields `Bool b`; an integral literal
in signed 64-bit range yields `Integer` of that value, with 8/16/32-bit signed
and unsigned inputs widened losslessly; a floating literal yields `Float` (a
32-bit float widened exactly); a textual scalar, single characters included,
yields `String`; a key-map yields `Object`; a list yields `Array`.  In
particular decode(42) is `Integer 42`, decode(42.0) is `Float 42.0`, and the
two results are unequal. -/
theorem C2_decoder_classifies_by_shape :
    deserialize_parameter_value Json.null = .ok .Null
    ∧ (∀ b, deserialize_parameter_value (.bool b) = .ok (.Bool b))
    ∧ (∀ n : Int, -(2 ^ 63) ≤ n → n < 2 ^ 63 →
        deserialize_parameter_value (.num (.int n)) = .ok (.Integer n))
    ∧ (∀ n : Int, -(2 ^ 7) ≤ n → n < 2 ^ 7 → PVVisitor.visit_i8 n = .ok (.Integer n))
    ∧ (∀ n : Int, -(2 ^ 15) ≤ n → n < 2 ^ 15 → PVVisitor.visit_i16 n = .ok (.Integer n))
    ∧ (∀ n : Int, -(2 ^ 31) ≤ n → n < 2 ^ 31 → PVVisitor.visit_i32 n = .ok (.Integer n))
    ∧ (∀ n : Nat, n < 2 ^ 8 → PVVisitor.visit_u8 n = .ok (.Integer (n : Int)))
    ∧ (∀ n : Nat, n < 2 ^ 16 → PVVisitor.visit_u16 n = .ok (.Integer (n : Int)))
    ∧ (∀ n : Nat, n < 2 ^ 32 → PVVisitor.visit_u32 n = .ok (.Integer (n : Int)))
    ∧ (∀ f : F64, deserialize_parameter_value (.num (.float f)) = .ok (.Float f))
    ∧ (∀ f : F64, PVVisitor.visit_f32 f = .ok (.Float f))
    ∧ (∀ s, deserialize_parameter_value (.str s) = .ok (.String s))
    ∧ (∀ c : Char, PVVisitor.visit_char c = .ok (.String (String.singleton c)))
    ∧ (∀ kvs, deserialize_parameter_value (.obj kvs) = .ok (.Object (.obj kvs)))
    ∧ (∀ xs, deserialize_parameter_value (.arr xs) = .ok (.Array xs))
    ∧ deserialize_parameter_value (.num (.int 42)) = .ok (.Integer 42)
    ∧ deserialize_parameter_value (.num (.float (.finite 42))) = .ok (.Float (.finite 42))
    ∧ ParameterValue.Integer 42 ≠ ParameterValue.Float (.finite 42) := by
  refine ⟨rfl, fun b => rfl, decode_int_i64, ?_, ?_, ?_, ?_, ?_, ?_,
    fun f => rfl, fun f => rfl, fun s => rfl, fun c => rfl, fun kvs => rfl, fun xs => rfl,
    ?_, rfl, fun h => nomatch h⟩
  · intro n _ _; rfl
  · intro n _ _; rfl
  · intro n _ _; rfl
  · intro n _; rfl
  · intro n _; rfl
  · intro n _; rfl
  · exact decode_int_i64 42 (by norm_num) (by norm_num)

/-- C2 witness: the range hypotheses hold and the classification follows at
the concrete inputs -5 (a signed 64-bit literal) and -100 (a signed 8-bit
widening). -/
theorem C2_decoder_classifies_by_shape_witness :
    deserialize_parameter_value (.num (.int (-5))) = .ok (.Integer (-5))
    ∧ PVVisitor.visit_i8 (-100) = .ok (.Integer (-100)) :=
  ⟨C2_decoder_classifies_by_shape.2.2.1 (-5) (by norm_num) (by norm_num),
   C2_decoder_classifies_by_shape.2.2.2.1 (-100) (by norm_num) (by norm_num)⟩

/-- C1: for every wire value of scalar shape (null, boolean, integral literal
in signed 64-bit range, double float, string), encoding the decoded
`ParameterValue` reproduces a wire value structurally equal to the original;
a wire integer decodes to `Integer` and re-encodes as an integral literal, a
wire float decodes to `Float` and re-encodes as a floating literal, so the
Integer/Float distinction survives the round trip. -/
theorem C1_scalar_roundtrip :
    (∀ j : Json, Json.scalarI64 j = true →
      Except.map encodeParameterValue (deserialize_parameter_value j) = .ok j)
    ∧ (∀ n : Int, -(2 ^ 63) ≤ n → n < 2 ^ 63 →
        deserialize_parameter_value (.num (.int n)) = .ok (.Integer n)
        ∧ encodeParameterValue (.Integer n) = .num (.int n))
    ∧ (∀ f : F64, deserialize_parameter_value (.num (.float f)) = .ok (.Float f)
        ∧ encodeParameterValue (.Float f) = .num (.float f)) := by
  refine ⟨?_, fun n h1 h2 => ⟨decode_int_i64 n h1 h2, rfl⟩, fun f => ⟨rfl, rfl⟩⟩
  intro j h
  cases j with
  | null => rfl
  | bool b => rfl
  | num nm =>
      cases nm with
      | int n =>
          simp only [Json.scalarI64, Bool.and_eq_true, decide_eq_true_eq] at h
          rw [decode_int_i64 n h.1 h.2]
          rfl
      | float f => rfl
  | str s => rfl
  | arr xs => simp [Json.scalarI64] at h
  | obj kvs => simp [Json.scalarI64] at h

/-- C1 witness: the round trip holds at the concrete scalar wire values 42
(integral) and 42.5 (floating), and the hypotheses are discharged there. -/
theorem C1_scalar_roundtrip_witness :
    Except.map encodeParameterValue (deserialize_parameter_value (.num (.int 42)))
      = .ok (.num (.int 42))
    ∧ (deserialize_parameter_value (.num (.float (.finite (85 / 2)))) =
        .ok (.Float (.finite (85 / 2)))
      ∧ encodeParameterValue (.Float (.finite (85 / 2))) = .num (.float (.finite (85 / 2)))) :=
  ⟨C1_scalar_roundtrip.1 (.num (.int 42)) (by norm_num [Json.scalarI64]),
   C1_scalar_roundtrip.2.2 (.finite (85 / 2))⟩

/-- C5 counterexample: the wire integral literal 2^63 (the first unsigned
64-bit value above `i64::MAX`) does not decode to the Float variant; the
`visit_u64` cast wraps and the decoder yields `Integer (-(2^63))`. -/
theorem C5_counterexample :
    deserialize_parameter_value (Json.num (JNum.int (2 ^ 63))) =
      .ok (ParameterValue.Integer (-(2 ^ 63)))
    ∧ PVVisitor.visit_u64 (2 ^ 63) = .ok (ParameterValue.Integer (-(2 ^ 63))) := by
  constructor
  · rw [deserialize_parameter_value, if_pos (by norm_num), PVVisitor.visit_u64,
      u64AsI64_wrap ((2 ^ 63 : Int)).toNat (by norm_num) (by norm_num), PVVisitor.visit_i64]
    norm_num
  · rw [PVVisitor.visit_u64, u64AsI64_wrap (2 ^ 63) (by norm_num) (by norm_num),
      PVVisitor.visit_i64]
    norm_num

/-- C5 (amended): a wire integral literal in `[2^63, 2^64)` is cast with
two's-complement wrap to signed 64 bits, so it decodes to
`Integer (value - 2^64)`, a negative value — not to Float; and on well-formed
wire input every decoded `Integer` lies within the signed 64-bit range. -/
theorem C5_u64_wraps_not_float :
    (∀ n : Nat, 2 ^ 63 ≤ n → n < 2 ^ 64 →
      deserialize_parameter_value (.num (.int (n : Int))) = .ok (.Integer ((n : Int) - 2 ^ 64))
      ∧ PVVisitor.visit_u64 n = .ok (.Integer ((n : Int) - 2 ^ 64)))
    ∧ (∀ j : Json, Json.WF j = true → ∀ m : Int,
        deserialize_parameter_value j = .ok (.Integer m) → -(2 ^ 63) ≤ m ∧ m < 2 ^ 63) := by
  constructor
  · intro n h1 h2
    have hcast : ((n : Int)).toNat = n := by omega
    constructor
    · rw [deserialize_parameter_value, if_pos (by positivity), PVVisitor.visit_u64, hcast,
        u64AsI64_wrap n h1 h2, PVVisitor.visit_i64]
    · rw [PVVisitor.visit_u64, u64AsI64_wrap n h1 h2, PVVisitor.visit_i64]
  · intro j hwf m hm
    cases j with
    | null => exact absurd hm (by rw [deserialize_parameter_value]; simp [PVVisitor.visit_unit])
    | bool b => exact absurd hm (by rw [deserialize_parameter_value]; simp [PVVisitor.visit_bool])
    | num nm =>
        cases nm with
        | int n =>
            rw [deserialize_parameter_value] at hm
            rw [Json.WF, Bool.and_eq_true, decide_eq_true_eq, decide_eq_true_eq] at hwf
            by_cases h : 0 ≤ n
            · rw [if_pos h, PVVisitor.visit_u64, PVVisitor.visit_i64] at hm
              have hr := u64AsI64_range n.toNat
              have : u64AsI64 n.toNat = m := by
                have := Except.ok.inj hm
                exact ParameterValue.Integer.inj this
              omega
            · rw [if_neg h, PVVisitor.visit_i64] at hm
              have : n = m := ParameterValue.Integer.inj (Except.ok.inj hm)
              omega
        | float f =>
            exact absurd hm (by rw [deserialize_parameter_value]; simp [PVVisitor.visit_f64])
    | str s =>
        exact absurd hm
          (by rw [deserialize_parameter_value]; simp [PVVisitor.visit_str, PVVisitor.visit_string])
    | arr xs => exact absurd hm (by rw [deserialize_parameter_value]; simp [PVVisitor.visit_seq])
    | obj kvs => exact absurd hm (by rw [deserialize_parameter_value]; simp [PVVisitor.visit_map])

/-- C5 witness: at the concrete out-of-signed-range input 2^63 + 5 the decoder
wraps to a negative `Integer`, and the range fact holds at the well-formed
input 7. -/
theorem C5_u64_wraps_not_float_witness :
    deserialize_parameter_value (.num (.int ((2 ^ 63 + 5 : Nat) : Int)))
      = .ok (.Integer (((2 ^ 63 + 5 : Nat) : Int) - 2 ^ 64))
    ∧ (-(2 ^ 63) ≤ (7 : Int) ∧ (7 : Int) < 2 ^ 63) :=
  ⟨(C5_u64_wraps_not_float.1 (2 ^ 63 + 5) (by norm_num) (by norm_num)).1,
   C5_u64_wraps_not_float.2 (.num (.int 7)) (by norm_num [Json.WF]) 7
     (decode_int_i64 7 (by norm_num) (by norm_num))⟩

/-- C4 counterexample: the well-formed wire key-map input rejected by the
`ActionParameterValue` decoder — decoding is not total for that type. -/
theorem C4_counterexample :
    Json.WF (Json.obj [("a", Json.null)]) = true
    ∧ decodeOk (deserialize_value (Json.obj [("a", Json.null)])) = false :=
  ⟨rfl, rfl⟩

/-- C4 (amended): `ParameterValue` decoding is total over the wire grammar —
every wire value decodes successfully to exactly one variant.
`ActionParameterValue` decoding succeeds on every null, boolean, numeric and
string wire value, but rejects key-maps and lists: its visitor implements no
map or sequence handler, so serde's defaults report an invalid type. -/
theorem C4_totality :
    (∀ j : Json, decodeOk (deserialize_parameter_value j) = true)
    ∧ decodeOk (deserialize_value Json.null) = true
    ∧ (∀ b, decodeOk (deserialize_value (.bool b)) = true)
    ∧ (∀ nm, decodeOk (deserialize_value (.num nm)) = true)
    ∧ (∀ s, decodeOk (deserialize_value (.str s)) = true)
    ∧ (∀ kvs, decodeOk (deserialize_value (.obj kvs)) = false)
    ∧ (∀ xs, decodeOk (deserialize_value (.arr xs)) = false) := by
  refine ⟨?_, rfl, fun b => rfl, ?_, fun s => rfl, fun kvs => rfl, fun xs => rfl⟩
  · intro j
    cases j with
    | num nm =>
        cases nm with
        | int n =>
            rw [deserialize_parameter_value]
            split <;> rfl
        | float f => rfl
    | null => rfl
    | bool b => rfl
    | str s => rfl
    | arr xs => rfl
    | obj kvs => rfl
  · intro nm
    cases nm with
    | int n =>
        rw [deserialize_value]
        split <;> rfl
    | float f => rfl

/-- Whatever the decoder returns, `as_number` sees nothing: no decode path
builds the `Number` variant. -/
theorem decode_as_number_none (j : Json) (v : ParameterValue)
    (h : deserialize_parameter_value j = .ok v) : v.as_number = none := by
  cases j with
  | null => rw [deserialize_parameter_value, PVVisitor.visit_unit] at h; cases h; rfl
  | bool b => rw [deserialize_parameter_value, PVVisitor.visit_bool] at h; cases h; rfl
  | num nm =>
      cases nm with
      | int n =>
          rw [deserialize_parameter_value] at h
          split at h <;>
            · simp only [PVVisitor.visit_u64, PVVisitor.visit_i64] at h
              cases h
              rfl
      | float f =>
          rw [deserialize_parameter_value, PVVisitor.visit_f64] at h; cases h; rfl
  | str s =>
      rw [deserialize_parameter_value, PVVisitor.visit_str, PVVisitor.visit_string] at h
      cases h; rfl
  | arr xs => rw [deserialize_parameter_value, PVVisitor.visit_seq] at h; cases h; rfl
  | obj kvs => rw [deserialize_parameter_value, PVVisitor.visit_map] at h; cases h; rfl

/-- C9: the `ParameterValue` decoder never produces the `Number` variant —
floating inputs map to `Float` — so `as_number` on any decoded value is
`none`; a `Number` can arise only from direct in-memory construction. -/
theorem C9_decoder_never_number :
    ∀ j : Json,
      (∀ f : F64, deserialize_parameter_value j ≠ .ok (.Number f))
      ∧ (∀ v, deserialize_parameter_value j = .ok v → v.as_number = none) := by
  intro j
  have h2 : ∀ v, deserialize_parameter_value j = .ok v → v.as_number = none :=
    fun v h => decode_as_number_none j v h
  refine ⟨?_, h2⟩
  intro f hf
  have := h2 (.Number f) hf
  simp [ParameterValue.as_number] at this

/-- C9 witness: at the concrete wire input 42 the decoded value reports no
`Number` content. -/
theorem C9_decoder_never_number_witness : (ParameterValue.Integer 42).as_number = none :=
  (C9_decoder_never_number (.num (.int 42))).2 (.Integer 42)
    (decode_int_i64 42 (by norm_num) (by norm_num))

/-- C6: each scalar accessor returns the contained value exactly when the
receiver is that variant and `none` otherwise; `is_null` holds exactly on the
`Null` variant; and decoding wire null yields `Null`. -/
theorem C6_accessors_exact :
    (∀ (v : ParameterValue) (b : Bool), v.as_bool = some b ↔ v = .Bool b)
    ∧ (∀ (v : ParameterValue) (i : Int), v.as_integer = some i ↔ v = .Integer i)
    ∧ (∀ (v : ParameterValue) (f : F64), v.as_float = some f ↔ v = .Float f)
    ∧ (∀ (v : ParameterValue) (n : F64), v.as_number = some n ↔ v = .Number n)
    ∧ (∀ (v : ParameterValue) (s : String), v.as_string = some s ↔ v = .String s)
    ∧ (∀ (v : ParameterValue) (o : Json), v.as_object = some o ↔ v = .Object o)
    ∧ (∀ (v : ParameterValue) (xs : List Json), v.as_array = some xs ↔ v = .Array xs)
    ∧ (∀ v : ParameterValue, v.is_null = true ↔ v = .Null)
    ∧ deserialize_parameter_value Json.null = .ok .Null := by
  refine ⟨?_, ?_, ?_, ?_, ?_, ?_, ?_, ?_, rfl⟩ <;> intro v <;>
    first
      | (intro x
         cases v <;>
           simp [ParameterValue.as_bool, ParameterValue.as_integer, ParameterValue.as_float,
             ParameterValue.as_number, ParameterValue.as_string, ParameterValue.as_object,
             ParameterValue.as_array])
      | (cases v <;> simp [ParameterValue.is_null])

/-- Comma-and-space separation of rendered elements, as the claim words it. -/
def sepCommaSpace : List String → String
  | [] => ""
  | [s] => s
  | s :: t :: rest => s ++ ", " ++ sepCommaSpace (t :: rest)

/-- The element loop, once past its first element, produces the
comma-and-space separated rendering. -/
theorem arrayElementsRender_cons (xs : List Json) :
    ∀ s : String, s ++ arrayElementsRender xs false = sepCommaSpace (s :: xs.map jsonRender) := by
  induction xs with
  | nil => intro s; simp [arrayElementsRender, sepCommaSpace, String.append_empty]
  | cons y ys ih =>
      intro s
      rw [List.map_cons, sepCommaSpace, arrayElementsRender, ← ih (jsonRender y)]
      simp [String.append_assoc]

/-- The `get_value` element loop equals comma-and-space separation. -/
theorem arrayElementsRender_eq (xs : List Json) :
    arrayElementsRender xs true = sepCommaSpace (xs.map jsonRender) := by
  cases xs with
  | nil => rfl
  | cons x rest =>
      rw [List.map_cons, ← arrayElementsRender_cons rest (jsonRender x), arrayElementsRender]
      simp

/-- `get_value` of an Array: bracket-wrapped, comma-and-space separated. -/
theorem get_value_array (xs : List Json) :
    (ParameterValue.Array xs).get_value = "[" ++ sepCommaSpace (xs.map jsonRender) ++ "]" := by
  rw [ParameterValue.get_value, arrayElementsRender_eq]

/-- C7: `get_value` is a total projection of every `ParameterValue` to a
string: booleans map to "true"/"false", Integer and Float to their canonical
decimal text, String to itself unchanged, Object to its nested textual
rendering and Array to the bracket-wrapped comma-and-space separated rendering
of its elements; the value decoded from wire "Hello World" projects to
"Hello World" and the value decoded from wire true projects to "true". -/
theorem C7_get_value_total_projection :
    ParameterValue.Null.get_value = "null"
    ∧ (ParameterValue.Bool true).get_value = "true"
    ∧ (ParameterValue.Bool false).get_value = "false"
    ∧ (∀ i : Int, (ParameterValue.Integer i).get_value = toString i)
    ∧ (∀ f : F64, (ParameterValue.Float f).get_value = F64.render f)
    ∧ (∀ n : F64, (ParameterValue.Number n).get_value = F64.render n)
    ∧ (∀ s : String, (ParameterValue.String s).get_value = s)
    ∧ (∀ v : Json, (ParameterValue.Object v).get_value = jsonRender v)
    ∧ (∀ xs : List Json,
        (ParameterValue.Array xs).get_value = "[" ++ sepCommaSpace (xs.map jsonRender) ++ "]")
    ∧ deserialize_parameter_value (.str "Hello World") = .ok (.String "Hello World")
    ∧ (ParameterValue.String "Hello World").get_value = "Hello World"
    ∧ deserialize_parameter_value (.bool true) = .ok (.Bool true) :=
  ⟨rfl, rfl, rfl, fun _ => rfl, fun _ => rfl, fun _ => rfl, fun _ => rfl, fun _ => rfl,
   get_value_array, rfl, rfl, rfl⟩

/-- C10: equality on the value types is not reflexive — a `Float`/`Number`
holding NaN compares unequal to itself under the derived IEEE-based
`PartialEq`, for `ParameterValue` and `ActionParameterValue` alike. -/
theorem C10_eq_not_reflexive_on_nan :
    rustEqParameterValue (.Float .nan) (.Float .nan) = false
    ∧ rustEqParameterValue (.Number .nan) (.Number .nan) = false
    ∧ rustEqActionParameterValue (.Float .nan) (.Float .nan) = false :=
  ⟨rfl, rfl, rfl⟩

/-- IEEE equality entails equality of the double model. -/
theorem F64.beq_imp_eq : ∀ a b : F64, F64.beq a b = true → a = b
  | .finite q, .finite r, h => by rw [F64.beq, decide_eq_true_eq] at h; rw [h]
  | .nan, .nan, _ => rfl

/-- IEEE equality is reflexive away from NaN. -/
theorem F64.beq_refl (a : F64) (h : a ≠ .nan) : F64.beq a a = true := by
  cases a with
  | nan => exact absurd rfl h
  | finite q => simp [F64.beq]

mutual
/-- Derived wire-value equality entails structural equality. -/
theorem jsonBeq_imp_eq : ∀ a b : Json, jsonBeq a b = true → a = b
  | .null, .null, _ => rfl
  | .bool a, .bool b, h => by rw [jsonBeq, decide_eq_true_eq] at h; rw [h]
  | .num (.int a), .num (.int b), h => by rw [jsonBeq, decide_eq_true_eq] at h; rw [h]
  | .num (.float a), .num (.float b), h => by
      rw [jsonBeq] at h; rw [F64.beq_imp_eq a b h]
  | .str a, .str b, h => by rw [jsonBeq, decide_eq_true_eq] at h; rw [h]
  | .arr a, .arr b, h => by rw [jsonBeq] at h; rw [jsonBeqList_imp_eq a b h]
  | .obj a, .obj b, h => by rw [jsonBeq] at h; rw [jsonBeqFields_imp_eq a b h]

/-- Element-wise derived equality entails structural equality of wire lists. -/
theorem jsonBeqList_imp_eq : ∀ a b : List Json, jsonBeqList a b = true → a = b
  | [], [], _ => rfl
  | x :: xs, y :: ys, h => by
      rw [jsonBeqList, Bool.and_eq_true] at h
      rw [jsonBeq_imp_eq x y h.1, jsonBeqList_imp_eq xs ys h.2]

/-- Entry-wise derived equality entails structural equality of wire key-maps. -/
theorem jsonBeqFields_imp_eq : ∀ a b : List (String × Json), jsonBeqFields a b = true → a = b
  | [], [], _ => rfl
  | (k, v) :: xs, (l, w) :: ys, h => by
      rw [jsonBeqFields, Bool.and_eq_true, Bool.and_eq_true, decide_eq_true_eq] at h
      obtain ⟨⟨h1, h2⟩, h3⟩ := h
      have h4 : k = l := h1
      rw [h4, jsonBeq_imp_eq v w h2, jsonBeqFields_imp_eq xs ys h3]
end

mutual
/-- Derived wire-value equality is reflexive on NaN-free values. -/
theorem jsonBeq_refl : ∀ a : Json, jsonNoNaN a = true → jsonBeq a a = true
  | .null, _ => rfl
  | .bool b, _ => by simp [jsonBeq]
  | .num (.int n), _ => by simp [jsonBeq]
  | .num (.float .nan), h => by simp [jsonNoNaN] at h
  | .num (.float (.finite q)), _ => by simp [jsonBeq, F64.beq]
  | .str s, _ => by simp [jsonBeq]
  | .arr xs, h => by rw [jsonBeq]; exact jsonBeqList_refl xs (by rw [jsonNoNaN] at h; exact h)
  | .obj kvs, h => by
      rw [jsonBeq]; exact jsonBeqFields_refl kvs (by rw [jsonNoNaN] at h; exact h)

/-- Element-wise reflexivity on NaN-free wire lists. -/
theorem jsonBeqList_refl : ∀ xs : List Json, jsonNoNaNList xs = true → jsonBeqList xs xs = true
  | [], _ => rfl
  | x :: xs, h => by
      rw [jsonNoNaNList, Bool.and_eq_true] at h
      rw [jsonBeqList, jsonBeq_refl x h.1, jsonBeqList_refl xs h.2]
      rfl

/-- Entry-wise reflexivity on NaN-free wire key-maps. -/
theorem jsonBeqFields_refl :
    ∀ kvs : List (String × Json), jsonNoNaNFields kvs = true → jsonBeqFields kvs kvs = true
  | [], _ => rfl
  | (k, v) :: kvs, h => by
      rw [jsonNoNaNFields, Bool.and_eq_true] at h
      rw [jsonBeqFields, jsonBeq_refl v h.1, jsonBeqFields_refl kvs h.2]
      simp
end

/-- On a NaN-free receiver, the derived `PartialEq` of `ParameterValue` is
reflexive. -/
theorem rustEqParameterValue_refl (v : ParameterValue) (h : v.noNaN = true) :
    rustEqParameterValue v v = true := by
  cases v with
  | Null => rfl
  | Bool b => simp [rustEqParameterValue]
  | Number f =>
      cases f with
      | nan => simp [ParameterValue.noNaN] at h
      | finite q => simp [rustEqParameterValue, F64.beq]
  | Integer i => simp [rustEqParameterValue]
  | Float f =>
      cases f with
      | nan => simp [ParameterValue.noNaN] at h
      | finite q => simp [rustEqParameterValue, F64.beq]
  | String s => simp [rustEqParameterValue]
  | Object o =>
      rw [rustEqParameterValue]
      exact jsonBeq_refl o (by simpa [ParameterValue.noNaN] using h)
  | Array xs =>
      rw [rustEqParameterValue]
      exact jsonBeqList_refl xs (by simpa [ParameterValue.noNaN] using h)

/-- On a NaN-free receiver, the derived `PartialEq` of `ParameterValue`
coincides with structural equality. -/
theorem rustEqParameterValue_iff (v w : ParameterValue) (h : v.noNaN = true) :
    rustEqParameterValue v w = true ↔ v = w := by
  constructor
  · intro hb
    cases v <;> cases w <;>
        simp only [rustEqParameterValue, decide_eq_true_eq, Bool.false_eq_true] at hb <;>
      try (first
        | rfl
        | (rw [hb])
        | (rw [F64.beq_imp_eq _ _ hb])
        | (rw [jsonBeq_imp_eq _ _ hb])
        | (rw [jsonBeqList_imp_eq _ _ hb]))
  · rintro rfl
    exact rustEqParameterValue_refl v h

/-- On a NaN-free receiver, the derived `PartialEq` of `ActionParameterValue`
coincides with structural equality. -/
theorem rustEqActionParameterValue_iff (v w : ActionParameterValue) (h : v.noNaN = true) :
    rustEqActionParameterValue v w = true ↔ v = w := by
  constructor
  · intro hb
    cases v <;> cases w <;>
        simp only [rustEqActionParameterValue, decide_eq_true_eq, Bool.false_eq_true] at hb <;>
      try (first
        | rfl
        | (rw [hb])
        | (rw [F64.beq_imp_eq _ _ hb]))
  · rintro rfl
    cases v with
    | Null => rfl
    | Boolean b => simp [rustEqActionParameterValue]
    | Integer i => simp [rustEqActionParameterValue]
    | Float f =>
        cases f with
        | nan => simp [ActionParameterValue.noNaN] at h
        | finite q => simp [rustEqActionParameterValue, F64.beq]
    | String s => simp [rustEqActionParameterValue]

/-- C8 counterexample: two records with identical field contents — key "k" and
value Float(NaN) — compare unequal, so equality is not purely structural. -/
theorem C8_counterexample :
    rustEqActionParameter ⟨"k", .Float .nan⟩ ⟨"k", .Float .nan⟩ = false := rfl

/-- C8 (amended): the derived equality compares field-wise, with
floating-point payloads under IEEE equality; for values free of NaN it
coincides with structural equality on `ActionParameterValue`,
`ParameterValue` and both `ActionParameter` record shapes, and differing in
any single field (key, declared-type hint, value, description, optionality)
makes two records compare unequal. -/
theorem C8_structural_equality :
    (∀ v w : ActionParameterValue, v.noNaN = true →
      (rustEqActionParameterValue v w = true ↔ v = w))
    ∧ (∀ v w : ParameterValue, v.noNaN = true → (rustEqParameterValue v w = true ↔ v = w))
    ∧ (∀ p q : action.ActionParameter, p.value.noNaN = true →
        (rustEqActionParameter p q = true ↔ p = q))
    ∧ (∀ p q : common.ActionParameter, p.value.noNaN = true →
        (rustEqCommonActionParameter p q = true ↔ p = q))
    ∧ (∀ p q : action.ActionParameter, p.key ≠ q.key → rustEqActionParameter p q = false)
    ∧ (∀ p q : action.ActionParameter, rustEqActionParameterValue p.value q.value = false →
        rustEqActionParameter p q = false)
    ∧ (∀ p q : common.ActionParameter, p.value_data_type ≠ q.value_data_type →
        rustEqCommonActionParameter p q = false)
    ∧ (∀ p q : common.ActionParameter, p.description ≠ q.description →
        rustEqCommonActionParameter p q = false)
    ∧ (∀ p q : common.ActionParameter, p.is_optional ≠ q.is_optional →
        rustEqCommonActionParameter p q = false) := by
  refine ⟨rustEqActionParameterValue_iff, rustEqParameterValue_iff, ?_, ?_, ?_, ?_, ?_, ?_, ?_⟩
  · intro p q h
    cases p with | mk pk pv =>
    cases q with | mk qk qv =>
    rw [rustEqActionParameter]
    simp only [Bool.and_eq_true, decide_eq_true_eq, action.ActionParameter.mk.injEq]
    rw [rustEqActionParameterValue_iff pv qv h]
  · intro p q h
    cases p with | mk pk pt pv pd po =>
    cases q with | mk qk qt qv qd qo =>
    rw [rustEqCommonActionParameter]
    simp only [Bool.and_eq_true, decide_eq_true_eq, common.ActionParameter.mk.injEq]
    rw [rustEqParameterValue_iff pv qv h]
    tauto
  · intro p q h
    simp [rustEqActionParameter, h]
  · intro p q h
    simp [rustEqActionParameter, h]
  · intro p q h
    simp [rustEqCommonActionParameter, h]
  · intro p q h
    simp [rustEqCommonActionParameter, h]
  · intro p q h
    simp [rustEqCommonActionParameter, h]

/-- C8 witness: the field-wise equality coincides with structural equality at
the concrete NaN-free records from the repository's own equality test
(action.rs test_partial_eq_functionality). -/
theorem C8_structural_equality_witness :
    (rustEqActionParameter ⟨"test", .Boolean true⟩ ⟨"test", .Boolean true⟩ = true
      ↔ (⟨"test", .Boolean true⟩ : action.ActionParameter) = ⟨"test", .Boolean true⟩)
    ∧ (rustEqActionParameterValue (.Integer 42) (.Integer 43) = true
      ↔ (ActionParameterValue.Integer 42) = .Integer 43) :=
  ⟨C8_structural_equality.2.2.1 ⟨"test", .Boolean true⟩ ⟨"test", .Boolean true⟩ rfl,
   C8_structural_equality.1 (.Integer 42) (.Integer 43) rfl⟩

/-- C3 (the code evaluated at the failing input): serializing the all-None
`ActionParameter` from the repository's own test emits every optional field
name with an explicit wire null — no optional field is omitted — exactly the
wire text the test `test_serde_ActionParameter_with_null_value` asserts, and
the explicit `Null` value field is likewise present as wire null; the
all-None `AgvPosition` behaves the same way. -/
theorem C3_optional_none_serialized_as_null :
    common.ActionParameter.serialize ⟨"my-null", none, .Null, none, none⟩ =
      Json.obj [("key", .str "my-null"), ("valueDataType", .null), ("value", .null),
        ("description", .null), ("isOptional", .null)]
    ∧ jsonObjFieldNames (common.ActionParameter.serialize ⟨"my-null", none, .Null, none, none⟩)
      = ["key", "valueDataType", "value", "description", "isOptional"]
    ∧ jsonObjField (common.ActionParameter.serialize ⟨"my-null", none, .Null, none, none⟩)
        "valueDataType" = some .null
    ∧ AgvPosition.serialize ⟨.finite 0, .finite 0, .finite 0, "map", none, true, none, none⟩ =
      Json.obj [("x", .num (.float (.finite 0))), ("y", .num (.float (.finite 0))),
        ("theta", .num (.float (.finite 0))), ("mapId", .str "map"),
        ("mapDescription", .null), ("positionInitialized", .bool true),
        ("localizationScore", .null), ("deviationRange", .null)] :=
  ⟨rfl, rfl, rfl, rfl⟩
